import Mathlib

/-!
Verification development for the message-wall browser client
(src/src/App.tsx).  The stateful React component is shallowly embedded:
the `useState` fields become an explicit `AppState` record, the
asynchronous blockchain / wallet calls become environment records whose
fields carry each call's outcome (`Except Unit _` for fallible reads),
and each handler (`showToast`, `connectWallet`, `getAllMessages`,
`postMessage`) becomes a pure state-transformer.  The toast auto-hide
timer is modelled with an absolute expiry time stored in the state and
an explicit `toastTimerFire` step.
-/

namespace MessageWall

/-- Toast kinds: 'success' | 'error' | 'loading' | '' in the source. -/
inductive ToastType where
  | success
  | error
  | loading
  | empty
deriving DecidableEq, Repr

/-- The definition `ToastState` from the source: `{ show, type, msg }`.
The `show` field is named `visible` here because `show` is a Lean keyword. -/
structure ToastState where
  visible : Bool
  type : ToastType
  msg : String
deriving DecidableEq, Repr

/-- A raw entry returned by the contract read `Messages(i)`:
`{ sender, text, timestamp }` with the timestamp in integer seconds. -/
structure RawMessage where
  sender : String
  text : String
  timestamp : Nat
deriving DecidableEq, Repr

/-- The definition `MessageItem` from the source.  `new Date(Number(msg.timestamp) * 1000)`
is modelled by keeping the epoch-milliseconds value. -/
structure MessageItem where
  sender : String
  text : String
  timestamp : Nat
deriving DecidableEq, Repr

/-- The definition `filterType` state: 'all' | 'mine'. -/
inductive FilterType where
  | all
  | mine
deriving DecidableEq, Repr

/-- The `useState` fields of the `App` component, plus the pending toast
timer (`toastTimeoutRef`), modelled as the absolute time at which the
scheduled `setTimeout` callback would fire (`none` when no timer is
pending). -/
structure AppState where
  currentAccount : Option String
  owner : Option String
  message : String
  isSubmitting : Bool
  isLoadingMessages : Bool
  allMessages : List MessageItem
  filterType : FilterType
  toast : ToastState
  toastTimeout : Option Nat
deriving DecidableEq, Repr

/-- Initial state of the component: all the `useState` initial values. -/
def initialState : AppState :=
  { currentAccount := none
    owner := none
    message := ""
    isSubmitting := false
    isLoadingMessages := false
    allMessages := []
    filterType := .all
    toast := { visible := false, type := .empty, msg := "" }
    toastTimeout := none }

/-- The definition `showToast(type, msg)` invoked at time `t`: clears any pending timer
(`clearTimeout`), shows the new toast, and schedules a hide 3000 ms
later.  Replacing `toastTimeout` wholesale is the `clearTimeout` +
`setTimeout` pair of the source. -/
def showToast (t : Nat) (ty : ToastType) (m : String) (s : AppState) : AppState :=
  { s with toast := { visible := true, type := ty, msg := m },
           toastTimeout := some (t + 3000) }

/-- The scheduled `setTimeout` callback observed at time `now`: if a
timer is pending and due, it sets `show` to `false` (keeping type and
msg, as `{ ...prev, show: false }` does). -/
def toastTimerFire (now : Nat) (s : AppState) : AppState :=
  match s.toastTimeout with
  | some e =>
      if e ≤ now then
        { s with toast := { s.toast with visible := false }, toastTimeout := none }
      else s
  | none => s

/-- The definition `displayedMessages` from the source:
`filterType === 'mine' ? allMessages.filter(m => m.sender.toLowerCase()
=== currentAccount?.toLowerCase()) : allMessages`.  When
`currentAccount` is null the optional chaining yields `undefined` and
the strict comparison is `false` for every entry. -/
def displayedMessages (s : AppState) : List MessageItem :=
  match s.filterType with
  | .mine =>
      s.allMessages.filter (fun m =>
        match s.currentAccount with
        | some a => m.sender.toLower == a.toLower
        | none => false)
  | .all => s.allMessages

/-- JavaScript `s.trim()`: remove leading and trailing whitespace.
Written over the character list so that it evaluates by kernel
reduction. -/
def jsTrim (s : String) : String :=
  { data :=
      (((s.data.dropWhile (fun c => c.isWhitespace)).reverse.dropWhile
          (fun c => c.isWhitespace)).reverse) }

/-- Outcome of the read-side RPC surface used by `getAllMessages`:
whether `getProvider()` finds `window.ethereum`, the result of
`getMessagesCount()` (already converted by `Number(...)` to a
non-negative integer), and the result of each point read `Messages(i)`.
A rejected promise is an `Except.error`. -/
structure ChainEnv where
  providerPresent : Bool
  countResult : Except Unit Nat
  readMessage : Nat → Except Unit RawMessage

/-- The definition `const limit = Math.max(0, count - 50)` (with saturating `Nat`
subtraction standing for the clamp at zero). -/
def fetchLimit (count : Nat) : Nat := max 0 (count - 50)

/-- The indices read by the loop
`for (let i = count - 1; i >= limit; i--) promises.push(contract.Messages(i))`:
`count-1, count-2, …, limit`, in that order. -/
def fetchIndices (count : Nat) : List Nat :=
  (List.range (count - fetchLimit count)).map (fun k => count - 1 - k)

/-- The definition `Promise.all` over the pushed reads: succeeds with the results in
order iff every individual read succeeds, and fails otherwise. -/
def collectReads (env : ChainEnv) : List Nat → Except Unit (List RawMessage)
  | [] => Except.ok []
  | i :: rest =>
      match env.readMessage i with
      | Except.error e => Except.error e
      | Except.ok r =>
          match collectReads env rest with
          | Except.error e => Except.error e
          | Except.ok rs => Except.ok (r :: rs)

/-- The definition `results.map(msg => ({ sender, text, timestamp: new Date(Number(msg.timestamp) * 1000) }))`
for one entry. -/
def formatMessage (m : RawMessage) : MessageItem :=
  { sender := m.sender, text := m.text, timestamp := m.timestamp * 1000 }

/-- The definition `getAllMessages` invoked at time `t` (the time only stamps the
toast timer).  If no provider is present nothing happens.  Otherwise the
loading flag is set, the count and the windowed point reads are awaited
jointly; on success `allMessages` is replaced wholesale, on any failure
(count read or any `Messages(i)` read) the catch block shows the error
toast and `allMessages` is untouched; the `finally` clears the loading
flag on every path. -/
def getAllMessages (env : ChainEnv) (t : Nat) (s : AppState) : AppState :=
  if env.providerPresent then
    let s1 := { s with isLoadingMessages := true }
    match env.countResult with
    | Except.error _ =>
        { showToast t .error "Failed to fetch messages" s1 with isLoadingMessages := false }
    | Except.ok count =>
        match collectReads env (fetchIndices count) with
        | Except.error _ =>
            { showToast t .error "Failed to fetch messages" s1 with isLoadingMessages := false }
        | Except.ok results =>
            { s1 with allMessages := results.map formatMessage, isLoadingMessages := false }
  else s

/-- Outcome of the wallet calls made by `connectWallet`:
`provider.send("eth_requestAccounts", [])` either resolves with the
account list or rejects (user declines the prompt). -/
structure ConnectEnv where
  providerPresent : Bool
  accountsResult : Except Unit (List String)

/-- The definition `connectWallet` invoked at time `t`.  With a provider, a resolved
request sets `currentAccount` to `accounts[0]` (`none` for an empty
list, as `undefined` would be) and shows the success toast; a rejected
request shows 'Connection rejected'.  Without a provider it shows
'Please install MetaMask'. -/
def connectWallet (env : ConnectEnv) (t : Nat) (s : AppState) : AppState :=
  if env.providerPresent then
    match env.accountsResult with
    | Except.ok accounts =>
        showToast t .success "Wallet connected successfully"
          { s with currentAccount := accounts.head? }
    | Except.error _ =>
        showToast t .error "Connection rejected" s
  else
    showToast t .error "Please install MetaMask" s

/-- The network interactions `postMessage` can perform, used to check
which calls were issued. -/
inductive NetEvent where
  | getSigner
  | postCall
  | txWait
  | fetchFeed
deriving DecidableEq, Repr

/-- Outcome of the write-side calls made by `postMessage`:
`provider.getSigner()`, the `contract.postMessage(message)` submission,
the `tx.wait()` confirmation, and the `ChainEnv` seen by the
`getAllMessages()` refresh on the success path. -/
structure PostEnv where
  providerPresent : Bool
  signerOk : Bool
  txOk : Bool
  waitOk : Bool
  chain : ChainEnv

/-- The definition `postMessage` invoked at time `t`.  Returns the new state together
with the list of network interactions actually issued.  An empty
trimmed message shows the error toast and returns before any network
call; a missing provider silently does nothing (the `if (provider)`
block has no else).  Otherwise `isSubmitting` is set, the three awaited
calls run in order, the catch block shows 'Transaction failed. Check
console.' on the first failure, the success path clears the input,
refreshes the feed and shows the success toast, and the `finally`
clears `isSubmitting` on every path. -/
def postMessage (env : PostEnv) (t : Nat) (s : AppState) : AppState × List NetEvent :=
  if jsTrim s.message = "" then
    (showToast t .error "Message cannot be empty" s, [])
  else if env.providerPresent then
    let s1 := { s with isSubmitting := true }
    if env.signerOk then
      if env.txOk then
        let s2 := showToast t .loading "Transaction submitted. Waiting for confirmation..." s1
        if env.waitOk then
          let s3 := { s2 with message := "" }
          let s4 := getAllMessages env.chain t s3
          let s5 := showToast t .success "Message posted successfully!" s4
          ({ s5 with isSubmitting := false }, [.getSigner, .postCall, .txWait, .fetchFeed])
        else
          ({ showToast t .error "Transaction failed. Check console." s2 with isSubmitting := false },
           [.getSigner, .postCall, .txWait])
      else
        ({ showToast t .error "Transaction failed. Check console." s1 with isSubmitting := false },
         [.getSigner, .postCall])
    else
      ({ showToast t .error "Transaction failed. Check console." s1 with isSubmitting := false },
       [.getSigner])
  else (s, [])

/-- Value of one hexadecimal digit character, `none` otherwise. -/
def hexVal (c : Char) : Option Nat :=
  if '0' ≤ c ∧ c ≤ '9' then some (c.toNat - '0'.toNat)
  else if 'a' ≤ c ∧ c ≤ 'f' then some (c.toNat - 'a'.toNat + 10)
  else if 'A' ≤ c ∧ c ≤ 'F' then some (c.toNat - 'A'.toNat + 10)
  else none

/-- Accumulate the value of the longest leading run of hex digits. -/
def parseHexDigits : List Char → Nat → Nat
  | c :: cs, acc =>
      match hexVal c with
      | some v => parseHexDigits cs (acc * 16 + v)
      | none => acc
  | [], acc => acc

/-- JavaScript `parseInt(s, 16)`: skip leading whitespace, an optional
sign and an optional 0x/0X marker, then read the longest run of hex
digits; `none` models the `NaN` result when no digit follows. -/
def jsParseInt16 (s : String) : Option Int :=
  let cs0 := s.data.dropWhile (fun c => c.isWhitespace)
  let signed : Bool × List Char :=
    match cs0 with
    | '-' :: rest => (true, rest)
    | '+' :: rest => (false, rest)
    | l => (false, l)
  let cs2 : List Char :=
    match signed.2 with
    | '0' :: 'x' :: rest => rest
    | '0' :: 'X' :: rest => rest
    | l => l
  match cs2 with
  | c :: _ =>
      if (hexVal c).isSome then
        let n := parseHexDigits cs2 0
        some (if signed.1 then -(n : Int) else (n : Int))
      else none
  | [] => none

/-- JavaScript `s.slice(a, b)` for character positions `a ≤ b`. -/
def jsSlice (s : String) (a b : Nat) : String :=
  { data := (s.data.drop a).take (b - a) }

/-- The definition `generateAvatarGradient` from the source.  `hash` is
`parseInt(address.slice(2, 10), 16)`; the bitwise extractions
`(hash >> 16) & 255`, `(hash >> 8) & 255`, `hash & 255` first coerce
`hash` to a 32-bit integer (`NaN` becomes 0), so they are the base-256
digits of `hash mod 2^32`. -/
def generateAvatarGradient (address : String) : String :=
  if address = "" then "linear-gradient(135deg, #ccc, #999)"
  else
    let hash := jsParseInt16 (jsSlice address 2 10)
    let u : Nat :=
      match hash with
      | some i => (i % ((2 : Int) ^ 32)).toNat
      | none => 0
    let r := (u / 2 ^ 16) % 256
    let g := (u / 2 ^ 8) % 256
    let b := u % 256
    s!"linear-gradient(135deg, rgb({r},{g},{b}), rgb({255 - r},{255 - g},{255 - b}))"

/-! ## Helper lemmas -/

/-- The window size `count - limit` is `min count 50`. -/
lemma count_sub_fetchLimit (count : Nat) : count - fetchLimit count = min count 50 := by
  simp only [fetchLimit]
  omega

/-- The fetched indices are `count-1-k` for `k < min count 50`. -/
lemma fetchIndices_eq (count : Nat) :
    fetchIndices count = (List.range (min count 50)).map (fun k => count - 1 - k) := by
  simp only [fetchIndices, count_sub_fetchLimit]

/-- If every requested read succeeds, `Promise.all` succeeds with the
results in request order. -/
lemma collectReads_ok (env : ChainEnv) (reads : Nat → RawMessage) :
    ∀ l : List Nat, (∀ i ∈ l, env.readMessage i = Except.ok (reads i)) →
      collectReads env l = Except.ok (l.map reads)
  | [], _ => rfl
  | i :: rest, h => by
      have hi := h i (List.mem_cons_self i rest)
      have hrest := collectReads_ok env reads rest (fun j hj => h j (List.mem_cons_of_mem i hj))
      simp [collectReads, hi, hrest]

/-- If any requested read fails, `Promise.all` fails. -/
lemma collectReads_err (env : ChainEnv) :
    ∀ l : List Nat, (∃ i ∈ l, env.readMessage i = Except.error ()) →
      collectReads env l = Except.error ()
  | [], h => by simp at h
  | i :: rest, h => by
      rcases h with ⟨j, hj, hje⟩
      rcases List.mem_cons.mp hj with rfl | hjr
      · simp [collectReads, hje]
      · cases hri : env.readMessage i with
        | error e =>
            cases e
            simp [collectReads, hri]
        | ok r =>
            have hrest := collectReads_err env rest ⟨j, hjr, hje⟩
            simp [collectReads, hri, hrest]

/-- The definition `getAllMessages` never touches the draft text, on any path. -/
@[simp] lemma getAllMessages_message (env : ChainEnv) (t : Nat) (s : AppState) :
    (getAllMessages env t s).message = s.message := by
  by_cases hp : env.providerPresent = true
  · cases hc : env.countResult with
    | error e => simp [getAllMessages, hp, hc, showToast]
    | ok count =>
        cases hcr : collectReads env (fetchIndices count) with
        | error e => simp [getAllMessages, hp, hc, hcr, showToast]
        | ok results => simp [getAllMessages, hp, hc, hcr]
  · simp [getAllMessages, hp]

/-- The definition `getAllMessages` never touches the submission flag, on any path. -/
@[simp] lemma getAllMessages_isSubmitting (env : ChainEnv) (t : Nat) (s : AppState) :
    (getAllMessages env t s).isSubmitting = s.isSubmitting := by
  by_cases hp : env.providerPresent = true
  · cases hc : env.countResult with
    | error e => simp [getAllMessages, hp, hc, showToast]
    | ok count =>
        cases hcr : collectReads env (fetchIndices count) with
        | error e => simp [getAllMessages, hp, hc, hcr, showToast]
        | ok results => simp [getAllMessages, hp, hc, hcr]
  · simp [getAllMessages, hp]

/-- The definition `getAllMessages` never touches the connected account, on any path. -/
@[simp] lemma getAllMessages_currentAccount (env : ChainEnv) (t : Nat) (s : AppState) :
    (getAllMessages env t s).currentAccount = s.currentAccount := by
  by_cases hp : env.providerPresent = true
  · cases hc : env.countResult with
    | error e => simp [getAllMessages, hp, hc, showToast]
    | ok count =>
        cases hcr : collectReads env (fetchIndices count) with
        | error e => simp [getAllMessages, hp, hc, hcr, showToast]
        | ok results => simp [getAllMessages, hp, hc, hcr]
  · simp [getAllMessages, hp]

/-! ## Claim theorems -/

/-- Claim C1: with a provider present, a successful `getMessagesCount`
returning `count` and every windowed point read succeeding,
`getAllMessages` replaces the feed with exactly `min count 50` entries
(never more than 50, exactly `count` when `count < 50`), the entry at
position `j` being the formatted entry of log index `count - 1 - j`
(position 0 holds index `count - 1`): descending original-index
order. -/
theorem fetch_window_spec (env : ChainEnv) (t : Nat) (s : AppState) (count : Nat)
    (reads : Nat → RawMessage)
    (hp : env.providerPresent = true)
    (hc : env.countResult = Except.ok count)
    (hr : ∀ i ∈ fetchIndices count, env.readMessage i = Except.ok (reads i)) :
    (getAllMessages env t s).allMessages =
      (List.range (min count 50)).map (fun j => formatMessage (reads (count - 1 - j))) ∧
    (getAllMessages env t s).allMessages.length = min count 50 ∧
    (getAllMessages env t s).allMessages.length ≤ 50 ∧
    (count < 50 → (getAllMessages env t s).allMessages.length = count) := by
  have hcoll := collectReads_ok env reads (fetchIndices count) hr
  rw [fetchIndices_eq] at hcoll
  have hmain : (getAllMessages env t s).allMessages =
      (List.range (min count 50)).map (fun j => formatMessage (reads (count - 1 - j))) := by
    simp [getAllMessages, hp, hc, hcoll, fetchIndices_eq, List.map_map, Function.comp]
  refine ⟨hmain, ?_, ?_, ?_⟩
  · simp [hmain]
  · simp [hmain]
  · intro hlt
    simp [hmain]
    omega

/-- Concrete instantiation for `fetch_window_spec`: a 3-entry log with
all reads succeeding. -/
def wReads (i : Nat) : RawMessage := { sender := "0xA", text := "m", timestamp := i }

/-- Environment for the concrete fetch: provider present, count 3,
every read succeeds. -/
def wEnvOk : ChainEnv :=
  { providerPresent := true
    countResult := Except.ok 3
    readMessage := fun i => Except.ok (wReads i) }

theorem fetch_window_spec_witness :
    (getAllMessages wEnvOk 0 initialState).allMessages =
      (List.range (min 3 50)).map (fun j => formatMessage (wReads (3 - 1 - j))) ∧
    (getAllMessages wEnvOk 0 initialState).allMessages.length = min 3 50 ∧
    (getAllMessages wEnvOk 0 initialState).allMessages.length ≤ 50 ∧
    (3 < 50 → (getAllMessages wEnvOk 0 initialState).allMessages.length = 3) :=
  fetch_window_spec wEnvOk 0 initialState 3 wReads rfl rfl (fun _ _ => rfl)

/-- Claim C2: with a provider present, if the count read fails or any
windowed point read fails, `getAllMessages` leaves `allMessages`
exactly as it was (no partial overwrite) and shows the error toast. -/
theorem fetch_failure_preserves_feed (env : ChainEnv) (t : Nat) (s : AppState)
    (hp : env.providerPresent = true)
    (hfail : env.countResult = Except.error () ∨
      ∃ count, env.countResult = Except.ok count ∧
        ∃ i ∈ fetchIndices count, env.readMessage i = Except.error ()) :
    (getAllMessages env t s).allMessages = s.allMessages ∧
    (getAllMessages env t s).toast =
      { visible := true, type := .error, msg := "Failed to fetch messages" } := by
  rcases hfail with hc | ⟨count, hc, hi⟩
  · simp [getAllMessages, hp, hc, showToast]
  · have hcr := collectReads_err env (fetchIndices count) hi
    simp [getAllMessages, hp, hc, hcr, showToast]

/-- Environment for the concrete failing fetch: the count read itself
rejects. -/
def wEnvFail : ChainEnv :=
  { providerPresent := true
    countResult := Except.error ()
    readMessage := fun _ => Except.error () }

theorem fetch_failure_preserves_feed_witness :
    (getAllMessages wEnvFail 0 initialState).allMessages = initialState.allMessages ∧
    (getAllMessages wEnvFail 0 initialState).toast =
      { visible := true, type := .error, msg := "Failed to fetch messages" } :=
  fetch_failure_preserves_feed wEnvFail 0 initialState rfl (Or.inl rfl)

/-- Claim C3: with no connected account, the 'mine' view is empty
whatever the feed holds; and for every filter mode the derivation is a
pure sublist of `allMessages` (it neither mutates the feed nor fetches:
`displayedMessages` is a function of the state alone, and the 'all'
view is the feed itself). -/
theorem mine_filter_spec (s : AppState) :
    (s.currentAccount = none → displayedMessages { s with filterType := .mine } = []) ∧
    displayedMessages { s with filterType := .all } = s.allMessages ∧
    List.Sublist (displayedMessages s) s.allMessages := by
  refine ⟨?_, rfl, ?_⟩
  · intro h
    simp [displayedMessages, h]
  · cases hf : s.filterType with
    | mine =>
        simp only [displayedMessages, hf]
        exact List.filter_sublist _
    | all =>
        simp [displayedMessages, hf]

/-- A state with a non-empty feed and no connected account, for the
concrete filtering check. -/
def wStateFeed : AppState :=
  { initialState with
      allMessages := [{ sender := "0xA", text := "hello", timestamp := 0 }] }

theorem mine_filter_spec_witness :
    displayedMessages { wStateFeed with filterType := .mine } = [] :=
  (mine_filter_spec wStateFeed).1 rfl

/-- Claim C4: a draft whose trimmed text is empty is rejected before
any network interaction: `postMessage` issues no call, shows the
'Message cannot be empty' error toast, and changes nothing else
(draft, feed, submission flag and account all keep their values). -/
theorem empty_message_rejected (env : PostEnv) (t : Nat) (s : AppState)
    (h : jsTrim s.message = "") :
    (postMessage env t s).2 = [] ∧
    (postMessage env t s).1.message = s.message ∧
    (postMessage env t s).1.allMessages = s.allMessages ∧
    (postMessage env t s).1.isSubmitting = s.isSubmitting ∧
    (postMessage env t s).1.currentAccount = s.currentAccount ∧
    (postMessage env t s).1.toast =
      { visible := true, type := .error, msg := "Message cannot be empty" } := by
  simp [postMessage, h, showToast]

/-- A fully functional write environment for concrete runs of
`postMessage`. -/
def wPostEnvOk : PostEnv :=
  { providerPresent := true
    signerOk := true
    txOk := true
    waitOk := true
    chain := wEnvOk }

/-- A whitespace-only draft (trims to the empty string). -/
def wStateBlank : AppState := { initialState with message := "   " }

theorem empty_message_rejected_witness :
    (postMessage wPostEnvOk 0 wStateBlank).2 = [] ∧
    (postMessage wPostEnvOk 0 wStateBlank).1.message = wStateBlank.message ∧
    (postMessage wPostEnvOk 0 wStateBlank).1.allMessages = wStateBlank.allMessages ∧
    (postMessage wPostEnvOk 0 wStateBlank).1.isSubmitting = wStateBlank.isSubmitting ∧
    (postMessage wPostEnvOk 0 wStateBlank).1.currentAccount = wStateBlank.currentAccount ∧
    (postMessage wPostEnvOk 0 wStateBlank).1.toast =
      { visible := true, type := .error, msg := "Message cannot be empty" } :=
  empty_message_rejected wPostEnvOk 0 wStateBlank (by decide)

/-- Claim C5: a submission that reaches finality successfully clears
the input text, triggers the feed refresh exactly once, shows the
success toast last, and releases the submission flag. -/
theorem post_success_spec (env : PostEnv) (t : Nat) (s : AppState)
    (hm : jsTrim s.message ≠ "")
    (hp : env.providerPresent = true)
    (hs : env.signerOk = true)
    (ht : env.txOk = true)
    (hw : env.waitOk = true) :
    (postMessage env t s).1.message = "" ∧
    (postMessage env t s).2.count NetEvent.fetchFeed = 1 ∧
    (postMessage env t s).1.toast =
      { visible := true, type := .success, msg := "Message posted successfully!" } ∧
    (postMessage env t s).1.isSubmitting = false := by
  simp [postMessage, hm, hp, hs, ht, hw, showToast, List.count_cons]

/-- A concrete non-empty draft. -/
def wStateDraft : AppState := { initialState with message := "hello" }

theorem post_success_spec_witness :
    (postMessage wPostEnvOk 0 wStateDraft).1.message = "" ∧
    (postMessage wPostEnvOk 0 wStateDraft).2.count NetEvent.fetchFeed = 1 ∧
    (postMessage wPostEnvOk 0 wStateDraft).1.toast =
      { visible := true, type := .success, msg := "Message posted successfully!" } ∧
    (postMessage wPostEnvOk 0 wStateDraft).1.isSubmitting = false :=
  post_success_spec wPostEnvOk 0 wStateDraft (by decide) rfl rfl rfl rfl

/-- Claim C6: a submission that fails at any stage (signer unavailable
or signing rejected, submission error, or confirmation failure) shows
the 'Transaction failed' error toast, leaves the draft text untouched,
leaves the feed untouched, and releases the submission flag so another
attempt is possible. -/
theorem post_failure_spec (env : PostEnv) (t : Nat) (s : AppState)
    (hm : jsTrim s.message ≠ "")
    (hp : env.providerPresent = true)
    (hfail : env.signerOk = false ∨ env.txOk = false ∨ env.waitOk = false) :
    (postMessage env t s).1.message = s.message ∧
    (postMessage env t s).1.isSubmitting = false ∧
    (postMessage env t s).1.allMessages = s.allMessages ∧
    (postMessage env t s).1.toast =
      { visible := true, type := .error, msg := "Transaction failed. Check console." } ∧
    NetEvent.fetchFeed ∉ (postMessage env t s).2 := by
  cases hsB : env.signerOk with
  | false => simp [postMessage, hm, hp, hsB, showToast]
  | true =>
      cases htB : env.txOk with
      | false => simp [postMessage, hm, hp, hsB, htB, showToast]
      | true =>
          cases hwB : env.waitOk with
          | false => simp [postMessage, hm, hp, hsB, htB, hwB, showToast]
          | true => simp [hsB, htB, hwB] at hfail

/-- A write environment whose confirmation (`tx.wait()`) fails. -/
def wPostEnvWaitFail : PostEnv :=
  { providerPresent := true
    signerOk := true
    txOk := true
    waitOk := false
    chain := wEnvOk }

theorem post_failure_spec_witness :
    (postMessage wPostEnvWaitFail 0 wStateDraft).1.message = wStateDraft.message ∧
    (postMessage wPostEnvWaitFail 0 wStateDraft).1.isSubmitting = false ∧
    (postMessage wPostEnvWaitFail 0 wStateDraft).1.allMessages = wStateDraft.allMessages ∧
    (postMessage wPostEnvWaitFail 0 wStateDraft).1.toast =
      { visible := true, type := .error, msg := "Transaction failed. Check console." } ∧
    NetEvent.fetchFeed ∉ (postMessage wPostEnvWaitFail 0 wStateDraft).2 :=
  post_failure_spec wPostEnvWaitFail 0 wStateDraft (by decide) rfl (Or.inr (Or.inr rfl))

/-- Claim C7: emitting a second toast at time `t2` while a first one
(emitted at `t1 ≤ t2 < t1 + 3000`) is still visible replaces kind and
message immediately, replaces the pending expiry timer with `t2 + 3000`
(the first's `t1 + 3000` timer is cancelled), and the second toast
stays visible at every instant before `t2 + 3000` — in particular past
the first's original expiry — and is hidden once its own full delay
elapses. -/
theorem toast_replacement_spec (t1 t2 : Nat) (ty1 ty2 : ToastType) (m1 m2 : String)
    (s : AppState)
    (h12 : t1 ≤ t2)
    (hvis : t2 < t1 + 3000) :
    (showToast t2 ty2 m2 (showToast t1 ty1 m1 s)).toast =
      { visible := true, type := ty2, msg := m2 } ∧
    (showToast t2 ty2 m2 (showToast t1 ty1 m1 s)).toastTimeout = some (t2 + 3000) ∧
    (∀ u, u < t2 + 3000 →
      (toastTimerFire u (showToast t2 ty2 m2 (showToast t1 ty1 m1 s))).toast.visible = true) ∧
    (toastTimerFire (t2 + 3000) (showToast t2 ty2 m2 (showToast t1 ty1 m1 s))).toast =
      { visible := false, type := ty2, msg := m2 } := by
  refine ⟨rfl, rfl, ?_, ?_⟩
  · intro u hu
    simp [toastTimerFire, showToast, Nat.not_le.mpr hu]
  · simp [toastTimerFire, showToast]

theorem toast_replacement_spec_witness :
    (showToast 1000 .error "b" (showToast 0 .success "a" initialState)).toast =
      { visible := true, type := .error, msg := "b" } ∧
    (showToast 1000 .error "b" (showToast 0 .success "a" initialState)).toastTimeout =
      some (1000 + 3000) ∧
    (∀ u, u < 1000 + 3000 →
      (toastTimerFire u
        (showToast 1000 .error "b" (showToast 0 .success "a" initialState))).toast.visible =
        true) ∧
    (toastTimerFire (1000 + 3000)
        (showToast 1000 .error "b" (showToast 0 .success "a" initialState))).toast =
      { visible := false, type := .error, msg := "b" } :=
  toast_replacement_spec 0 1000 .success .error "a" "b" initialState (by decide) (by decide)

/-- A write environment with no provider at all. -/
def noProviderPostEnv : PostEnv :=
  { providerPresent := false
    signerOk := false
    txOk := false
    waitOk := false
    chain :=
      { providerPresent := false
        countResult := Except.error ()
        readMessage := fun _ => Except.error () } }

/-- Claim C8, counterexample: with no provider and a non-empty trimmed
draft, `postMessage` issues no call but also emits NO notification and
changes nothing — the `if (provider)` block in the source has no else
branch, so the claimed Error notification never appears. -/
theorem post_no_provider_counterexample :
    jsTrim wStateDraft.message ≠ "" ∧
    noProviderPostEnv.providerPresent = false ∧
    postMessage noProviderPostEnv 0 wStateDraft = (wStateDraft, []) ∧
    (postMessage noProviderPostEnv 0 wStateDraft).1.toast.visible = false := by
  refine ⟨by decide, rfl, rfl, rfl⟩

/-- A connect environment with no provider. -/
def noProviderConnectEnv : ConnectEnv :=
  { providerPresent := false
    accountsResult := Except.error () }

/-- A connect environment whose `eth_requestAccounts` prompt the user
rejects. -/
def rejectedConnectEnv : ConnectEnv :=
  { providerPresent := true
    accountsResult := Except.error () }

/-- Claim C8, amended: `connectWallet` surfaces provider absence as the
Error toast 'Please install MetaMask' and user rejection as the
distinguishable Error toast 'Connection rejected', leaving the account
unchanged in both cases; `postMessage` with a non-empty trimmed draft
and no provider issues no network call but is blocked silently — it
emits no notification and leaves the whole state unchanged. -/
theorem wallet_error_spec (cenv : ConnectEnv) (penv : PostEnv) (t : Nat) (s : AppState) :
    (cenv.providerPresent = false →
      (connectWallet cenv t s).toast =
        { visible := true, type := .error, msg := "Please install MetaMask" } ∧
      (connectWallet cenv t s).currentAccount = s.currentAccount) ∧
    (cenv.providerPresent = true → cenv.accountsResult = Except.error () →
      (connectWallet cenv t s).toast =
        { visible := true, type := .error, msg := "Connection rejected" } ∧
      (connectWallet cenv t s).currentAccount = s.currentAccount) ∧
    ("Please install MetaMask" : String) ≠ "Connection rejected" ∧
    (penv.providerPresent = false → jsTrim s.message ≠ "" →
      postMessage penv t s = (s, [])) := by
  refine ⟨?_, ?_, by decide, ?_⟩
  · intro hp
    simp [connectWallet, hp, showToast]
  · intro hp ha
    simp [connectWallet, hp, ha, showToast]
  · intro hp hm
    simp [postMessage, hm, hp]

theorem wallet_error_spec_witness :
    ((connectWallet noProviderConnectEnv 0 wStateDraft).toast =
        { visible := true, type := .error, msg := "Please install MetaMask" } ∧
      (connectWallet noProviderConnectEnv 0 wStateDraft).currentAccount =
        wStateDraft.currentAccount) ∧
    ((connectWallet rejectedConnectEnv 0 wStateDraft).toast =
        { visible := true, type := .error, msg := "Connection rejected" } ∧
      (connectWallet rejectedConnectEnv 0 wStateDraft).currentAccount =
        wStateDraft.currentAccount) ∧
    postMessage noProviderPostEnv 0 wStateDraft = (wStateDraft, []) :=
  ⟨(wallet_error_spec noProviderConnectEnv noProviderPostEnv 0 wStateDraft).1 rfl,
   (wallet_error_spec rejectedConnectEnv noProviderPostEnv 0 wStateDraft).2.1 rfl rfl,
   (wallet_error_spec noProviderConnectEnv noProviderPostEnv 0 wStateDraft).2.2.2 rfl
     (by decide)⟩

/-- Claim C9: `generateAvatarGradient` is deterministic — it is a pure
function of the address string alone (no hidden state in the
embedding), so equal inputs give equal output strings. -/
theorem generateAvatarGradient_deterministic (a b : String) (h : a = b) :
    generateAvatarGradient a = generateAvatarGradient b := by
  rw [h]

theorem generateAvatarGradient_deterministic_witness :
    generateAvatarGradient "0xC12F1c378580e22ab3491E055de000FED075E24c" =
      generateAvatarGradient "0xC12F1c378580e22ab3491E055de000FED075E24c" :=
  generateAvatarGradient_deterministic _ _ rfl

/-- Claim C10: the busy flags are always released: any `getAllMessages`
run that starts (provider present) ends with `isLoadingMessages`
false, and any `postMessage` run that starts a submission (non-empty
trimmed draft, provider present) ends with `isSubmitting` false —
whether the operation succeeded or failed. -/
theorem busy_flags_released (cenv : ChainEnv) (penv : PostEnv) (t : Nat) (s : AppState) :
    (cenv.providerPresent = true → (getAllMessages cenv t s).isLoadingMessages = false) ∧
    (penv.providerPresent = true → jsTrim s.message ≠ "" →
      (postMessage penv t s).1.isSubmitting = false) := by
  constructor
  · intro hp
    cases hc : cenv.countResult with
    | error e => simp [getAllMessages, hp, hc, showToast]
    | ok count =>
        cases hcr : collectReads cenv (fetchIndices count) with
        | error e => simp [getAllMessages, hp, hc, hcr, showToast]
        | ok results => simp [getAllMessages, hp, hc, hcr]
  · intro hp hm
    cases hsB : penv.signerOk with
    | false => simp [postMessage, hm, hp, hsB, showToast]
    | true =>
        cases htB : penv.txOk with
        | false => simp [postMessage, hm, hp, hsB, htB, showToast]
        | true =>
            cases hwB : penv.waitOk with
            | false => simp [postMessage, hm, hp, hsB, htB, hwB, showToast]
            | true => simp [postMessage, hm, hp, hsB, htB, hwB, showToast]

theorem busy_flags_released_witness :
    (getAllMessages wEnvFail 0 wStateDraft).isLoadingMessages = false ∧
    (postMessage wPostEnvWaitFail 0 wStateDraft).1.isSubmitting = false :=
  ⟨(busy_flags_released wEnvFail wPostEnvWaitFail 0 wStateDraft).1 rfl,
   (busy_flags_released wEnvFail wPostEnvWaitFail 0 wStateDraft).2 rfl (by decide)⟩

end MessageWall
